import Mathlib

/-!
Shallow embedding of the gitlab_runner_register Ansible module
(src/gitlab_runner_register.py).

The module shells out to the gitlab-runner binary and reads two files.
Those external effects are modelled by an Env record that records the
outcome the environment would produce for each effect (exit codes and
output of the status / register / unregister subprocesses, existence of
the runner id file and of the config file, and the TOML parse result of
the config file), and by a trace of EAction values listing, in order, the
mutating external actions the module performs.  `act` mirrors
`Runner.act`, the main entrypoint; the other definitions mirror the
methods of the Runner class and the module-level helpers.
-/

/-- TOML-style values, used for the global_params mapping. -/
inductive GVal where
  | i : Int → GVal
  | s : String → GVal
  | b : Bool → GVal
  | d : List (String × GVal) → GVal

/-- Mirrors the RunnerState enum of the module, with its string values. -/
inductive RunnerState where
  | REREGISTERED
  | REGISTERED
  | UNREGISTERED
  | TOKEN_MISMATCH
  | NAME_MISMATCH
deriving DecidableEq, Repr

/-- The `.value` attribute of the RunnerState enum members. -/
def RunnerState.value : RunnerState → String
  | .REREGISTERED => "Reregistered"
  | .REGISTERED => "Registered"
  | .UNREGISTERED => "Unregistered"
  | .TOKEN_MISMATCH => "Token Mismatch"
  | .NAME_MISMATCH => "Runner Name Mismatch"

/-- The module parameters bound in `Runner.__init__` from `module.params`.
Optional string parameters are `Option String` (Python `None` is `none`);
dict parameters are association lists. -/
structure Params where
  state : String
  api_url : String
  token : String
  name : String
  executor : Option String
  default_image : Option String
  environ_vars : Option (List (String × String))
  global_params : Option (List (String × GVal))
  template_file : Option String
  recreate : Bool

/-- One `[[runners]]` entry of the parsed config.toml: the two fields
`get_state` reads.  A missing field is `none` (a KeyError in Python). -/
structure RunnerEntry where
  name : Option String
  token : Option String
deriving DecidableEq

/-- The parsed config.toml as far as the module inspects it: the value of
the "runners" key, `none` when the key is absent (a KeyError in Python). -/
structure Config where
  runners : Option (List RunnerEntry)
deriving DecidableEq

/-- Outcomes the environment produces for each external effect the module
performs: the `gitlab-runner status` subprocess, the two file existence
checks (`/etc/gitlab-runner/.runner_system_id`, config.toml), the result
of `toml.load` on the config file, and the exit codes and output of the
`register` and `unregister` subprocesses. -/
structure Env where
  statusRc : Int
  statusStdout : String
  statusStderr : String
  runnerIdExists : Bool
  configExists : Bool
  parseResult : Except String Config
  registerRc : Int
  registerStdout : String
  registerStderr : String
  unregisterRc : Int
  unregisterStdout : String
  unregisterStderr : String

/-- A mutating external action performed by the module: either seeding the
config file with the global params (`make_start_config`: serialize to a
temp file and atomically move over config.toml), or running a subprocess
command, possibly with extra environment variables. -/
inductive EAction where
  | seedConfig : List (String × GVal) → EAction
  | run : List String → Option (List (String × String)) → EAction

/-- A `fail_json` abort, carrying exactly the extra output the Python code
passes to `fail_json` alongside its message. -/
inductive Failure where
  | serviceStopped
  | statusError : String → String → Failure
  | serviceNotRunning : String → String → Failure
  | noRunnerId
  | parseError : String → Failure
  | registerError : String → String → Failure
  | unregisterError : String → String → Failure
deriving DecidableEq

/-- The stdout/stderr pair a Failure surfaces through `fail_json`, `none`
when the corresponding `fail_json` call passes only a message. -/
def failureOutput : Failure → Option (String × String)
  | .statusError o e => some (o, e)
  | .serviceNotRunning o e => some (o, e)
  | .registerError o e => some (o, e)
  | .unregisterError o e => some (o, e)
  | _ => none

/-- The fields of `command_results` passed to `exit_json`: result state
string, changed flag, optional action message, and the warnings list when
non-empty. -/
structure CmdResults where
  runner_state : String
  changed : Bool
  msg : Option String
  warnings : Option (List String)
deriving DecidableEq

/-- Result of one invocation: the ordered trace of mutating external
actions performed, and either the `exit_json` results or the `fail_json`
failure that aborted the run. -/
structure ActOutcome where
  trace : List EAction
  result : Except Failure CmdResults

/-- Result of `get_state` together with its side effects on the Runner
object: the state returned, the warnings appended to `self.warnings`, and
the value stored in `self.current_name` (both start empty/None). -/
structure ObsResult where
  state : RunnerState
  warnings : List String
  current_name : Option String
deriving DecidableEq

/-- Boolean list-prefix test on characters. -/
def startsWithB : List Char → List Char → Bool
  | [], _ => true
  | _ :: _, [] => false
  | a :: as, b :: bs => a == b && startsWithB as bs

/-- Boolean contiguous-sublist test on characters. -/
def hasSub (pat : List Char) : List Char → Bool
  | [] => startsWithB pat []
  | c :: rest => startsWithB pat (c :: rest) || hasSub pat rest

/-- `re.search` with a literal pattern: substring containment. -/
def strHas (s pat : String) : Bool := hasSub pat.data s.data

/-- The resolved path of the gitlab-runner binary (`get_binary`; the real
path is environment dependent and opaque to the logic). -/
def runnerBin : String := "gitlab-runner"

/-- `Runner.check_service`: run `gitlab-runner status`; on non-zero exit
fail with a plain message when stderr matches "Service has stopped", else
fail surfacing stdout/stderr; on zero exit fail surfacing stdout/stderr
unless stdout matches "Service is running". -/
def check_service (env : Env) : Except Failure Unit :=
  if env.statusRc ≠ 0 then
    if strHas env.statusStderr "Service has stopped" then
      Except.error Failure.serviceStopped
    else
      Except.error (Failure.statusError env.statusStdout env.statusStderr)
  else if strHas env.statusStdout "Service is running" = false then
    Except.error (Failure.serviceNotRunning env.statusStdout env.statusStderr)
  else
    Except.ok ()

/-- `Runner.verify_config_exists`: fatal if the runner id file is absent;
otherwise report whether the config file exists. -/
def verify_config_exists (env : Env) : Except Failure Bool :=
  if env.runnerIdExists then Except.ok env.configExists
  else Except.error Failure.noRunnerId

/-- The first `[[runners]]` entry, `config["runners"][0]`: `none` when the
key is absent or the list is empty (KeyError / IndexError in Python). -/
def firstEntry (cfg : Config) : Option RunnerEntry :=
  match cfg.runners with
  | none => none
  | some rs => rs.head?

/-- `Runner.get_state`: classify the parsed config against the desired
token and name.  A missing entry or missing name/token field is
UNREGISTERED; a differing token is TOKEN_MISMATCH; a matching token is
REGISTERED, and when the name differs a NAME_MISMATCH warning is appended
and the observed name is stored in `current_name`. -/
def get_state (p : Params) (cfg : Config) : ObsResult :=
  match firstEntry cfg with
  | none => ⟨RunnerState.UNREGISTERED, [], none⟩
  | some sec =>
    match sec.name, sec.token with
    | some rname, some rtoken =>
      if rtoken ≠ p.token then ⟨RunnerState.TOKEN_MISMATCH, [], none⟩
      else if rname ≠ p.name then
        ⟨RunnerState.REGISTERED,
         [RunnerState.NAME_MISMATCH.value ++ ". Perhaps re-registration required."],
         some rname⟩
      else ⟨RunnerState.REGISTERED, [], none⟩
    | _, _ => ⟨RunnerState.UNREGISTERED, [], none⟩

/-- The observation phase of `act`: when the config file exists, parse it
(`load_config_content`, a parse failure propagates) and run `get_state`;
otherwise the state is UNREGISTERED. -/
def observe (p : Params) (configExists : Bool) (parse : Except String Config) :
    Except Failure ObsResult :=
  if configExists then
    match parse with
    | Except.error e => Except.error (Failure.parseError e)
    | Except.ok cfg => Except.ok (get_state p cfg)
  else
    Except.ok ⟨RunnerState.UNREGISTERED, [], none⟩

/-- Python truthiness of an optional string: `none` and the empty string
are falsy. -/
def optTruthy : Option String → Bool
  | none => false
  | some s => s ≠ ""

/-- An optional `--flag value` pair of the register command, added only
when the value is truthy. -/
def optFlag (flag : String) (v : Option String) : List String :=
  match v with
  | none => []
  | some s => if s = "" then [] else [flag, s]

/-- The command list built by `Runner.register_runner`. -/
def register_cmd (p : Params) : List String :=
  [runnerBin, "register", "--non-interactive",
   "--url", p.api_url, "--token", p.token, "--name", p.name]
  ++ optFlag "--executor" p.executor
  ++ optFlag "--docker-image" p.default_image
  ++ optFlag "--template-config" p.template_file

/-- The extra environment passed to the register subprocess: the
environ_vars mapping when truthy (non-empty), else nothing. -/
def register_env (p : Params) : Option (List (String × String)) :=
  match p.environ_vars with
  | none => none
  | some l => if l = [] then none else some l

/-- The register subprocess invocation as a traced action. -/
def registerAction (p : Params) : EAction :=
  EAction.run (register_cmd p) (register_env p)

/-- The name `Runner.unregister_runner` targets: `self.current_name` when
truthy (set and non-empty), otherwise the desired name. -/
def unregister_name (desired : String) (current : Option String) : String :=
  match current with
  | none => desired
  | some n => if n = "" then desired else n

/-- The command list built by `Runner.unregister_runner`. -/
def unregister_cmd (p : Params) (current : Option String) : List String :=
  [runnerBin, "unregister", "--name", unregister_name p.name current]

/-- The unregister subprocess invocation as a traced action. -/
def unregisterAction (p : Params) (current : Option String) : EAction :=
  EAction.run (unregister_cmd p current) none

/-- `Runner.make_start_config`: when global_params is truthy (non-empty),
serialize it and atomically replace config.toml; otherwise do nothing. -/
def make_start_config (p : Params) : List EAction :=
  match p.global_params with
  | none => []
  | some g => if g.isEmpty then [] else [EAction.seedConfig g]

/-- `Runner.register_runner`: run the register command; non-zero exit is
fatal, surfacing stdout and stderr. -/
def register_runner (p : Params) (env : Env) : List EAction × Option Failure :=
  ([registerAction p],
   if env.registerRc = 0 then none
   else some (Failure.registerError env.registerStdout env.registerStderr))

/-- `Runner.unregister_runner`: run the unregister command; non-zero exit
is fatal, surfacing stdout and stderr. -/
def unregister_runner (p : Params) (current : Option String) (env : Env) :
    List EAction × Option Failure :=
  ([unregisterAction p current],
   if env.unregisterRc = 0 then none
   else some (Failure.unregisterError env.unregisterStdout env.unregisterStderr))

/-- `Runner.do_enable`: seed the start config, then register. -/
def do_enable (p : Params) (env : Env) : List EAction × Option Failure :=
  (make_start_config p ++ (register_runner p env).1, (register_runner p env).2)

/-- `Runner.do_reenable`: unregister, then (unless that aborted) enable. -/
def do_reenable (p : Params) (current : Option String) (env : Env) :
    List EAction × Option Failure :=
  match unregister_runner p current env with
  | (u, some f) => (u, some f)
  | (u, none) => (u ++ (do_enable p env).1, (do_enable p env).2)

/-- `Runner.do_disable`: unregister. -/
def do_disable (p : Params) (current : Option String) (env : Env) :
    List EAction × Option Failure :=
  unregister_runner p current env

/-- The dispatch part of `Runner.act`, from the observed state to the
selected compound action, the after-state and the message, and the final
`command_results` assembly (result state string, changed flag computed as
before-state string differing from result state string, warnings when
non-empty). -/
def act_dispatch (p : Params) (env : Env) (obs : ObsResult) : ActOutcome :=
  let step : List EAction × Option Failure × Option RunnerState × Option String :=
    if p.state = "present" then
      match obs.state, p.recreate with
      | RunnerState.UNREGISTERED, _ =>
        ((do_enable p env).1, (do_enable p env).2,
         some RunnerState.REGISTERED, some "Init registering Runner")
      | RunnerState.TOKEN_MISMATCH, _ =>
        ((do_reenable p obs.current_name env).1, (do_reenable p obs.current_name env).2,
         some RunnerState.REREGISTERED,
         some "Reregistering Runner due to Token mismatch")
      | RunnerState.REGISTERED, true =>
        ((do_reenable p obs.current_name env).1, (do_reenable p obs.current_name env).2,
         some RunnerState.REREGISTERED,
         some "Force reregistering Runner due to recreate option")
      | _, _ => ([], none, none, none)
    else if p.state = "absent" then
      match obs.state with
      | RunnerState.REGISTERED =>
        ((do_disable p obs.current_name env).1, (do_disable p obs.current_name env).2,
         some RunnerState.UNREGISTERED, some "Unregistering Runner")
      | _ => ([], none, none, none)
    else ([], none, none, none)
  match step with
  | (acts, some f, _, _) => ⟨acts, Except.error f⟩
  | (acts, none, state_after, msg) =>
    let runner_state :=
      (match state_after with
       | some s => s
       | none => obs.state).value
    ⟨acts,
     Except.ok
       ⟨runner_state,
        obs.state.value != runner_state,
        msg,
        if obs.warnings = [] then none else some obs.warnings⟩⟩

/-- `Runner.act`: preflight service check, runner id / config existence
check, observation, then dispatch. -/
def act (p : Params) (env : Env) : ActOutcome :=
  match check_service env with
  | Except.error f => ⟨[], Except.error f⟩
  | Except.ok _ =>
    match verify_config_exists env with
    | Except.error f => ⟨[], Except.error f⟩
    | Except.ok configExists =>
      match observe p configExists env.parseResult with
      | Except.error f => ⟨[], Except.error f⟩
      | Except.ok obs => act_dispatch p env obs

/-- `get_default_globals`: the default value of the global_params module
parameter. -/
def get_default_globals : List (String × GVal) :=
  [("concurrent", GVal.i 1),
   ("check_interval", GVal.i 0),
   ("connection_max_age", GVal.s "15m0s"),
   ("shutdown_timeout", GVal.i 0),
   ("session_server", GVal.d [("session_timeout", GVal.i 1800)])]

/-- The framework-side defaulting declared in `make_argument_spec`: when
the global_params parameter is omitted the declared default
`get_default_globals()` is used, otherwise the supplied mapping is used
as given. -/
def resolve_global_params : Option (List (String × GVal)) → Option (List (String × GVal))
  | none => some get_default_globals
  | some g => some g

/-- The result state string of a completed invocation, `none` on abort. -/
def resultStateOf (o : ActOutcome) : Option String :=
  match o.result with
  | Except.ok r => some r.runner_state
  | Except.error _ => none

example :
    check_service ⟨0, "Service is running", "", true, false, Except.ok ⟨none⟩,
      0, "", "", 0, "", ""⟩ = Except.ok () := rfl

example : strHas "abc Service has stopped xyz" "Service has stopped" = true := by decide

example : strHas "Service has stoppe" "Service has stopped" = false := by decide

theorem verify_ok (env : Env) (hid : env.runnerIdExists = true) :
    verify_config_exists env = Except.ok env.configExists := by
  simp [verify_config_exists, hid]

theorem act_ok (p : Params) (env : Env) (obs : ObsResult)
    (hsvc : check_service env = Except.ok ())
    (hid : env.runnerIdExists = true)
    (hobs : observe p env.configExists env.parseResult = Except.ok obs) :
    act p env = act_dispatch p env obs := by
  unfold act
  rw [hsvc, verify_ok env hid]
  simp only [hobs]

/-- C1: for every completing invocation, `act` performs exactly the
external actions and yields exactly the result state of the section 4.6
transition table, keyed by desired target, observed state and recreate
flag: UNREGISTERED/present registers yielding Registered, absent no-op;
TOKEN_MISMATCH/present unregisters then registers yielding Reregistered,
absent no-op; REGISTERED/present no-op unless recreate in which case it
unregisters then registers yielding Reregistered, REGISTERED/absent
unregisters yielding Unregistered. -/
theorem act_transition_table (p : Params) (env : Env) (obs : ObsResult)
    (hsvc : check_service env = Except.ok ())
    (hid : env.runnerIdExists = true)
    (hobs : observe p env.configExists env.parseResult = Except.ok obs)
    (hreg : env.registerRc = 0)
    (hunreg : env.unregisterRc = 0) :
    (p.state = "present" → obs.state = RunnerState.UNREGISTERED →
      (act p env).trace = make_start_config p ++ [registerAction p] ∧
      resultStateOf (act p env) = some "Registered") ∧
    (p.state = "present" → obs.state = RunnerState.TOKEN_MISMATCH →
      (act p env).trace
        = unregisterAction p obs.current_name :: (make_start_config p ++ [registerAction p]) ∧
      resultStateOf (act p env) = some "Reregistered") ∧
    (p.state = "present" → obs.state = RunnerState.REGISTERED → p.recreate = false →
      (act p env).trace = [] ∧ resultStateOf (act p env) = some "Registered") ∧
    (p.state = "present" → obs.state = RunnerState.REGISTERED → p.recreate = true →
      (act p env).trace
        = unregisterAction p obs.current_name :: (make_start_config p ++ [registerAction p]) ∧
      resultStateOf (act p env) = some "Reregistered") ∧
    (p.state = "absent" → obs.state = RunnerState.UNREGISTERED →
      (act p env).trace = [] ∧ resultStateOf (act p env) = some "Unregistered") ∧
    (p.state = "absent" → obs.state = RunnerState.TOKEN_MISMATCH →
      (act p env).trace = [] ∧ resultStateOf (act p env) = some "Token Mismatch") ∧
    (p.state = "absent" → obs.state = RunnerState.REGISTERED →
      (act p env).trace = [unregisterAction p obs.current_name] ∧
      resultStateOf (act p env) = some "Unregistered") := by
  rw [act_ok p env obs hsvc hid hobs]
  refine ⟨?_, ?_, ?_, ?_, ?_, ?_, ?_⟩
  · intro hp hs
    simp [act_dispatch, do_enable, do_reenable, do_disable, register_runner,
      unregister_runner, hp, hs, hreg, hunreg, resultStateOf, RunnerState.value]
  · intro hp hs
    simp [act_dispatch, do_enable, do_reenable, do_disable, register_runner,
      unregister_runner, hp, hs, hreg, hunreg, resultStateOf, RunnerState.value]
  · intro hp hs hr
    simp [act_dispatch, do_enable, do_reenable, do_disable, register_runner,
      unregister_runner, hp, hs, hr, hreg, hunreg, resultStateOf, RunnerState.value]
  · intro hp hs hr
    simp [act_dispatch, do_enable, do_reenable, do_disable, register_runner,
      unregister_runner, hp, hs, hr, hreg, hunreg, resultStateOf, RunnerState.value]
  · intro hp hs
    simp [act_dispatch, do_enable, do_reenable, do_disable, register_runner,
      unregister_runner, hp, hs, hreg, hunreg, resultStateOf, RunnerState.value]
  · intro hp hs
    simp [act_dispatch, do_enable, do_reenable, do_disable, register_runner,
      unregister_runner, hp, hs, hreg, hunreg, resultStateOf, RunnerState.value]
  · intro hp hs
    simp [act_dispatch, do_enable, do_reenable, do_disable, register_runner,
      unregister_runner, hp, hs, hreg, hunreg, resultStateOf, RunnerState.value]

/-- Concrete parameters for the C1 witness: desired present, no config. -/
def pC1 : Params :=
  ⟨"present", "https://gitlab.example.com", "tok", "host1", some "docker",
   none, none, none, none, false⟩

/-- Concrete environment for the C1 witness: service running, runner id
present, no config file. -/
def envC1 : Env :=
  ⟨0, "Service is running", "", true, false, Except.ok ⟨none⟩, 0, "", "", 0, "", ""⟩

/-- C1 witness: the transition table theorem evaluated at a concrete
present/UNREGISTERED invocation. -/
theorem act_transition_table_witness :
    (act pC1 envC1).trace = make_start_config pC1 ++ [registerAction pC1] ∧
    resultStateOf (act pC1 envC1) = some "Registered" :=
  (act_transition_table pC1 envC1 ⟨RunnerState.UNREGISTERED, [], none⟩
    rfl rfl rfl rfl rfl).1 rfl rfl

/-- C2: for every completing invocation the changed flag is true iff the
before-state string differs from the reported result state string; every
no-op path (empty action trace) reports the observed state, changed false
and no message; every action path reports changed true and a message. -/
theorem act_report (p : Params) (env : Env) (obs : ObsResult) (res : CmdResults)
    (hsvc : check_service env = Except.ok ())
    (hid : env.runnerIdExists = true)
    (hobs : observe p env.configExists env.parseResult = Except.ok obs)
    (hreg : env.registerRc = 0)
    (hunreg : env.unregisterRc = 0)
    (hres : (act p env).result = Except.ok res) :
    (res.changed = true ↔ obs.state.value ≠ res.runner_state) ∧
    ((act p env).trace = [] →
      res.runner_state = obs.state.value ∧ res.changed = false ∧ res.msg = none) ∧
    ((act p env).trace ≠ [] → res.changed = true ∧ res.msg.isSome = true) := by
  rw [act_ok p env obs hsvc hid hobs] at hres ⊢
  by_cases hp : p.state = "present"
  · cases hso : obs.state with
    | UNREGISTERED =>
      simp [act_dispatch, do_enable, register_runner, hp, hso, hreg,
        RunnerState.value] at hres ⊢
      subst hres
      simp [RunnerState.value]
    | TOKEN_MISMATCH =>
      simp [act_dispatch, do_reenable, do_enable, register_runner,
        unregister_runner, hp, hso, hreg, hunreg, RunnerState.value] at hres ⊢
      subst hres
      simp [RunnerState.value]
    | REGISTERED =>
      cases hr : p.recreate
      · simp [act_dispatch, hp, hso, hr, RunnerState.value] at hres ⊢
        subst hres
        simp [RunnerState.value]
      · simp [act_dispatch, do_reenable, do_enable, register_runner,
          unregister_runner, hp, hso, hr, hreg, hunreg, RunnerState.value] at hres ⊢
        subst hres
        simp [RunnerState.value]
    | REREGISTERED =>
      simp [act_dispatch, hp, hso, RunnerState.value] at hres ⊢
      subst hres
      simp [RunnerState.value]
    | NAME_MISMATCH =>
      simp [act_dispatch, hp, hso, RunnerState.value] at hres ⊢
      subst hres
      simp [RunnerState.value]
  · by_cases ha : p.state = "absent"
    · cases hso : obs.state with
      | REGISTERED =>
        simp [act_dispatch, do_disable, unregister_runner, hp, ha, hso, hunreg,
          RunnerState.value] at hres ⊢
        subst hres
        simp [RunnerState.value]
      | UNREGISTERED =>
        simp [act_dispatch, hp, ha, hso, RunnerState.value] at hres ⊢
        subst hres
        simp [RunnerState.value]
      | TOKEN_MISMATCH =>
        simp [act_dispatch, hp, ha, hso, RunnerState.value] at hres ⊢
        subst hres
        simp [RunnerState.value]
      | REREGISTERED =>
        simp [act_dispatch, hp, ha, hso, RunnerState.value] at hres ⊢
        subst hres
        simp [RunnerState.value]
      | NAME_MISMATCH =>
        simp [act_dispatch, hp, ha, hso, RunnerState.value] at hres ⊢
        subst hres
        simp [RunnerState.value]
    · simp [act_dispatch, hp, ha] at hres ⊢
      subst hres
      simp

/-- Concrete parameters for the C2 witness: desired absent, no config. -/
def pC2 : Params :=
  ⟨"absent", "https://gitlab.example.com", "tok", "host1", some "docker",
   none, none, none, none, false⟩

/-- Concrete environment for the C2 witness. -/
def envC2 : Env :=
  ⟨0, "Service is running", "", true, false, Except.ok ⟨none⟩, 0, "", "", 0, "", ""⟩

/-- Observation of the C2 witness invocation. -/
def obsC2 : ObsResult := ⟨RunnerState.UNREGISTERED, [], none⟩

/-- Reported results of the C2 witness invocation. -/
def resC2 : CmdResults := ⟨"Unregistered", false, none, none⟩

/-- C2 witness: the report theorem evaluated at a concrete no-op
absent/UNREGISTERED invocation. -/
theorem act_report_witness :
    (resC2.changed = true ↔ obsC2.state.value ≠ resC2.runner_state) ∧
    ((act pC2 envC2).trace = [] →
      resC2.runner_state = obsC2.state.value ∧ resC2.changed = false ∧
      resC2.msg = none) ∧
    ((act pC2 envC2).trace ≠ [] →
      resC2.changed = true ∧ resC2.msg.isSome = true) :=
  act_report pC2 envC2 obsC2 resC2 rfl rfl rfl rfl rfl rfl

/-- Parameters for the C3 counterexample: desired name "x", token "tok",
desired absent so the invocation unregisters. -/
def pC3 : Params :=
  ⟨"absent", "https://gitlab.example.com", "tok", "x", some "docker",
   none, none, none, none, false⟩

/-- Config for the C3 counterexample: matching token, observed name is the
empty string (differing from the desired name "x"). -/
def cfgC3 : Config := ⟨some [⟨some "", some "tok"⟩]⟩

/-- Environment for the C3 counterexample. -/
def envC3 : Env :=
  ⟨0, "Service is running", "", true, true, Except.ok cfgC3, 0, "", "", 0, "", ""⟩

/-- C3 counterexample: with matching token and observed name "" (differing
from the desired name "x"), `get_state` captures the observed name "", yet
the unregistration of the same invocation targets the desired name "x",
not the captured observed name: `self.current_name` is used only when
truthy, and the empty string is falsy in Python. -/
theorem get_state_capture_cex :
    (get_state pC3 cfgC3).state = RunnerState.REGISTERED ∧
    (get_state pC3 cfgC3).current_name = some "" ∧
    pC3.name ≠ "" ∧
    (act pC3 envC3).trace
      = [EAction.run [runnerBin, "unregister", "--name", pC3.name] none] ∧
    unregister_name pC3.name (get_state pC3 cfgC3).current_name ≠ "" :=
  ⟨rfl, rfl, by decide, rfl, by decide⟩

/-- C3 (amended): `get_state` returns UNREGISTERED when the first agent
entry or its name or token field is missing, TOKEN_MISMATCH when the
observed token differs from the desired token, and REGISTERED when the
token matches; when additionally the name differs it records exactly one
name-mismatch warning and captures the observed name, and a subsequent
unregistration in the same invocation targets the captured observed name
provided that name is non-empty (an empty captured name is falsy in
Python, so unregistration then falls back to the desired name). -/
theorem get_state_classification (p : Params) (cfg : Config) :
    (firstEntry cfg = none → get_state p cfg = ⟨RunnerState.UNREGISTERED, [], none⟩) ∧
    (∀ e, firstEntry cfg = some e → (e.name = none ∨ e.token = none) →
      get_state p cfg = ⟨RunnerState.UNREGISTERED, [], none⟩) ∧
    (∀ e rn rt, firstEntry cfg = some e → e.name = some rn → e.token = some rt →
      rt ≠ p.token → get_state p cfg = ⟨RunnerState.TOKEN_MISMATCH, [], none⟩) ∧
    (∀ e rn, firstEntry cfg = some e → e.name = some rn → e.token = some p.token →
      rn ≠ p.name →
      get_state p cfg
        = ⟨RunnerState.REGISTERED,
           [RunnerState.NAME_MISMATCH.value ++ ". Perhaps re-registration required."],
           some rn⟩ ∧
      (rn ≠ "" → unregister_name p.name (get_state p cfg).current_name = rn)) ∧
    (∀ e, firstEntry cfg = some e → e.name = some p.name → e.token = some p.token →
      get_state p cfg = ⟨RunnerState.REGISTERED, [], none⟩) := by
  refine ⟨?_, ?_, ?_, ?_, ?_⟩
  · intro h
    simp [get_state, h]
  · intro e he hne
    rcases hne with h | h
    · simp [get_state, he, h]
    · cases hn : e.name <;> simp [get_state, he, h, hn]
  · intro e rn rt he hn ht hne
    simp [get_state, he, hn, ht, hne]
  · intro e rn he hn ht hrn
    have h1 :
        get_state p cfg
          = ⟨RunnerState.REGISTERED,
             [RunnerState.NAME_MISMATCH.value ++ ". Perhaps re-registration required."],
             some rn⟩ := by
      simp [get_state, he, hn, ht, hrn]
    refine ⟨h1, ?_⟩
    intro hne
    rw [h1]
    simp [unregister_name, hne]
  · intro e he hn ht
    simp [get_state, he, hn, ht]

/-- Parameters for the C3 amended witness. -/
def pC3w : Params :=
  ⟨"present", "https://gitlab.example.com", "tok", "me", some "docker",
   none, none, none, none, false⟩

/-- Config for the C3 amended witness: token matches, name differs. -/
def cfgC3w : Config := ⟨some [⟨some "other", some "tok"⟩]⟩

/-- C3 witness: the classification theorem evaluated on a concrete
name-mismatch configuration. -/
theorem get_state_classification_witness :
    get_state pC3w cfgC3w
      = ⟨RunnerState.REGISTERED,
         [RunnerState.NAME_MISMATCH.value ++ ". Perhaps re-registration required."],
         some "other"⟩ ∧
    unregister_name pC3w.name (get_state pC3w cfgC3w).current_name = "other" := by
  have h := (get_state_classification pC3w cfgC3w).2.2.2.1
    ⟨some "other", some "tok"⟩ "other" rfl rfl rfl (by decide)
  exact ⟨h.1, h.2 (by decide)⟩

/-- Parameters for the C4 counterexample: desired absent. -/
def pC4 : Params :=
  ⟨"absent", "https://gitlab.example.com", "tok", "host1", some "docker",
   none, none, none, none, false⟩

/-- Config for the C4 counterexample: observed token differs. -/
def cfgC4 : Config := ⟨some [⟨some "host1", some "other"⟩]⟩

/-- Environment for the C4 counterexample. -/
def envC4 : Env :=
  ⟨0, "Service is running", "", true, true, Except.ok cfgC4, 0, "", "", 0, "", ""⟩

/-- C4 counterexample: an invocation whose observed token differs from the
desired token but whose desired target is absent performs no action at all
and results in "Token Mismatch", not "Reregistered": the claim's universal
statement fails for absent invocations. -/
theorem token_mismatch_absent_cex :
    (get_state pC4 cfgC4).state = RunnerState.TOKEN_MISMATCH ∧
    (act pC4 envC4).trace = [] ∧
    resultStateOf (act pC4 envC4) = some "Token Mismatch" ∧
    resultStateOf (act pC4 envC4) ≠ some "Reregistered" :=
  ⟨rfl, rfl, rfl, by decide⟩

/-- C4 (amended): for every completing invocation with desired target
present whose observed token differs from the desired token, the result is
"Reregistered" and both unregister and register run, in that order, with
the unregister action using the desired name (no observed-name capture and
no name-mismatch warning occur on the token-mismatch path). -/
theorem token_mismatch_present_reregisters (p : Params) (env : Env)
    (e : RunnerEntry) (rn rt : String) (cfg : Config)
    (hsvc : check_service env = Except.ok ())
    (hid : env.runnerIdExists = true)
    (hcex : env.configExists = true)
    (hparse : env.parseResult = Except.ok cfg)
    (hfe : firstEntry cfg = some e)
    (hn : e.name = some rn)
    (ht : e.token = some rt)
    (hne : rt ≠ p.token)
    (hp : p.state = "present")
    (hreg : env.registerRc = 0)
    (hunreg : env.unregisterRc = 0) :
    (act p env).trace
      = EAction.run [runnerBin, "unregister", "--name", p.name] none
          :: (make_start_config p ++ [registerAction p]) ∧
    resultStateOf (act p env) = some "Reregistered" ∧
    (∀ r, (act p env).result = Except.ok r → r.warnings = none) := by
  have hgs : get_state p cfg = ⟨RunnerState.TOKEN_MISMATCH, [], none⟩ := by
    simp [get_state, hfe, hn, ht, hne]
  have hobs :
      observe p env.configExists env.parseResult
        = Except.ok ⟨RunnerState.TOKEN_MISMATCH, [], none⟩ := by
    rw [hcex, hparse]
    simp [observe, hgs]
  rw [act_ok p env ⟨RunnerState.TOKEN_MISMATCH, [], none⟩ hsvc hid hobs]
  refine ⟨?_, ?_, ?_⟩
  · simp [act_dispatch, do_reenable, do_enable, register_runner, unregister_runner,
      unregisterAction, unregister_cmd, unregister_name, hp, hreg, hunreg]
  · simp [act_dispatch, do_reenable, do_enable, register_runner, unregister_runner,
      hp, hreg, hunreg, resultStateOf, RunnerState.value]
  · intro r hr
    simp [act_dispatch, do_reenable, do_enable, register_runner, unregister_runner,
      hp, hreg, hunreg] at hr
    subst hr
    rfl

/-- Parameters for the C4 witness: desired present. -/
def pC4w : Params :=
  ⟨"present", "https://gitlab.example.com", "tok", "host1", some "docker",
   none, none, none, none, false⟩

/-- Environment for the C4 witness: config with a differing token. -/
def envC4w : Env :=
  ⟨0, "Service is running", "", true, true,
   Except.ok ⟨some [⟨some "host1", some "other"⟩]⟩, 0, "", "", 0, "", ""⟩

/-- C4 witness: the amended theorem evaluated on a concrete
present/token-mismatch invocation. -/
theorem token_mismatch_present_reregisters_witness :
    (act pC4w envC4w).trace
      = EAction.run [runnerBin, "unregister", "--name", pC4w.name] none
          :: (make_start_config pC4w ++ [registerAction pC4w]) ∧
    resultStateOf (act pC4w envC4w) = some "Reregistered" ∧
    (∀ r, (act pC4w envC4w).result = Except.ok r → r.warnings = none) :=
  token_mismatch_present_reregisters pC4w envC4w ⟨some "host1", some "other"⟩
    "host1" "other" ⟨some [⟨some "host1", some "other"⟩]⟩
    rfl rfl rfl rfl rfl rfl rfl (by decide) rfl rfl rfl

/-- Parameters for the C5 counterexample: name mismatch with recreate. -/
def pC5 : Params :=
  ⟨"present", "https://gitlab.example.com", "tok", "me", some "docker",
   none, none, none, none, true⟩

/-- Config for the C5 counterexample: token matches, name differs. -/
def cfgC5 : Config := ⟨some [⟨some "other", some "tok"⟩]⟩

/-- Environment for the C5 counterexample. -/
def envC5 : Env :=
  ⟨0, "Service is running", "", true, true, Except.ok cfgC5, 0, "", "", 0, "", ""⟩

/-- C5 counterexample: an invocation whose observed name differs while the
token matches, but with recreate=true, unregisters (targeting the captured
observed name) and reregisters: the result is "Reregistered" with changed
true and a non-empty action trace, so the claim's universal statement
fails for recreate invocations. -/
theorem name_mismatch_recreate_cex :
    (get_state pC5 cfgC5).state = RunnerState.REGISTERED ∧
    (get_state pC5 cfgC5).current_name = some "other" ∧
    (act pC5 envC5).trace
      = [EAction.run [runnerBin, "unregister", "--name", "other"] none,
         registerAction pC5] ∧
    (act pC5 envC5).result
      = Except.ok ⟨"Reregistered", true,
          some "Force reregistering Runner due to recreate option",
          some ["Runner Name Mismatch. Perhaps re-registration required."]⟩ ∧
    ("Reregistered" : String) ≠ "Registered" :=
  ⟨rfl, rfl, rfl, rfl, by decide⟩

/-- C5 (amended): for every completing invocation with desired target
present and recreate=false whose observed name differs from the desired
name while the observed token matches, the result state is "Registered", a
name-mismatch warning is present, changed is false, and no external
mutating action is performed. -/
theorem name_mismatch_noop (p : Params) (env : Env)
    (e : RunnerEntry) (rn : String) (cfg : Config)
    (hsvc : check_service env = Except.ok ())
    (hid : env.runnerIdExists = true)
    (hcex : env.configExists = true)
    (hparse : env.parseResult = Except.ok cfg)
    (hfe : firstEntry cfg = some e)
    (hn : e.name = some rn)
    (ht : e.token = some p.token)
    (hrn : rn ≠ p.name)
    (hp : p.state = "present")
    (hr : p.recreate = false) :
    (act p env).trace = [] ∧
    (act p env).result
      = Except.ok ⟨"Registered", false, none,
          some [RunnerState.NAME_MISMATCH.value ++ ". Perhaps re-registration required."]⟩ := by
  have hgs :
      get_state p cfg
        = ⟨RunnerState.REGISTERED,
           [RunnerState.NAME_MISMATCH.value ++ ". Perhaps re-registration required."],
           some rn⟩ := by
    simp [get_state, hfe, hn, ht, hrn]
  have hobs :
      observe p env.configExists env.parseResult
        = Except.ok
            ⟨RunnerState.REGISTERED,
             [RunnerState.NAME_MISMATCH.value ++ ". Perhaps re-registration required."],
             some rn⟩ := by
    rw [hcex, hparse]
    simp [observe, hgs]
  rw [act_ok p env
    ⟨RunnerState.REGISTERED,
     [RunnerState.NAME_MISMATCH.value ++ ". Perhaps re-registration required."],
     some rn⟩ hsvc hid hobs]
  constructor
  · simp [act_dispatch, hp, hr]
  · simp [act_dispatch, hp, hr, RunnerState.value]

/-- Parameters for the C5 witness. -/
def pC5w : Params :=
  ⟨"present", "https://gitlab.example.com", "tok", "me", some "docker",
   none, none, none, none, false⟩

/-- Environment for the C5 witness: token matches, name differs. -/
def envC5w : Env :=
  ⟨0, "Service is running", "", true, true,
   Except.ok ⟨some [⟨some "other", some "tok"⟩]⟩, 0, "", "", 0, "", ""⟩

/-- C5 witness: the amended theorem evaluated on a concrete name-mismatch
invocation with recreate=false. -/
theorem name_mismatch_noop_witness :
    (act pC5w envC5w).trace = [] ∧
    (act pC5w envC5w).result
      = Except.ok ⟨"Registered", false, none,
          some [RunnerState.NAME_MISMATCH.value ++ ". Perhaps re-registration required."]⟩ :=
  name_mismatch_noop pC5w envC5w ⟨some "other", some "tok"⟩ "other"
    ⟨some [⟨some "other", some "tok"⟩]⟩
    rfl rfl rfl rfl rfl rfl rfl (by decide) rfl rfl

/-- Parameters for the C6 counterexample. -/
def pC6 : Params :=
  ⟨"present", "https://gitlab.example.com", "tok", "host1", some "docker",
   none, none, none, none, false⟩

/-- Environment for the C6 counterexample: status exits non-zero with
stderr reporting the service stopped. -/
def envC6 : Env :=
  ⟨1, "status out", "FATAL: Service has stopped", true, false,
   Except.ok ⟨none⟩, 0, "", "", 0, "", ""⟩

/-- C6 counterexample: when the status command exits non-zero and stderr
matches "Service has stopped", the invocation aborts with a plain message
only; the claim's "with stdout/stderr surfaced" fails on this branch, the
`fail_json` call passes no stdout/stderr even though both are non-empty. -/
theorem service_stopped_no_output_cex :
    envC6.statusRc ≠ 0 ∧
    strHas envC6.statusStderr "Service has stopped" = true ∧
    act pC6 envC6 = ⟨[], Except.error Failure.serviceStopped⟩ ∧
    failureOutput Failure.serviceStopped = none ∧
    envC6.statusStdout ≠ "" ∧ envC6.statusStderr ≠ "" :=
  ⟨by decide, rfl, rfl, rfl, by decide, by decide⟩

/-- C6 (amended): the preflight and environment checks run before any
observation or action: every status-check failure aborts with no action
performed, surfacing stdout/stderr except on the service-stopped branch
(which reports only a message); absence of the identity marker aborts
fatally; absence of the configuration document with the marker present is
not an error and yields observed state UNREGISTERED. -/
theorem preflight_checks (p : Params) (env : Env) :
    (∀ f, check_service env = Except.error f → act p env = ⟨[], Except.error f⟩) ∧
    (env.statusRc ≠ 0 → strHas env.statusStderr "Service has stopped" = true →
      act p env = ⟨[], Except.error Failure.serviceStopped⟩ ∧
      failureOutput Failure.serviceStopped = none) ∧
    (env.statusRc ≠ 0 → strHas env.statusStderr "Service has stopped" = false →
      act p env
        = ⟨[], Except.error (Failure.statusError env.statusStdout env.statusStderr)⟩ ∧
      failureOutput (Failure.statusError env.statusStdout env.statusStderr)
        = some (env.statusStdout, env.statusStderr)) ∧
    (env.statusRc = 0 → strHas env.statusStdout "Service is running" = false →
      act p env
        = ⟨[], Except.error (Failure.serviceNotRunning env.statusStdout env.statusStderr)⟩ ∧
      failureOutput (Failure.serviceNotRunning env.statusStdout env.statusStderr)
        = some (env.statusStdout, env.statusStderr)) ∧
    (check_service env = Except.ok () → env.runnerIdExists = false →
      act p env = ⟨[], Except.error Failure.noRunnerId⟩) ∧
    (check_service env = Except.ok () → env.runnerIdExists = true →
      env.configExists = false →
      act p env = act_dispatch p env ⟨RunnerState.UNREGISTERED, [], none⟩) := by
  have habort : ∀ f, check_service env = Except.error f →
      act p env = ⟨[], Except.error f⟩ := by
    intro f hf
    simp [act, hf]
  refine ⟨habort, ?_, ?_, ?_, ?_, ?_⟩
  · intro h1 h2
    exact ⟨habort _ (by simp [check_service, h1, h2]), rfl⟩
  · intro h1 h2
    exact ⟨habort _ (by simp [check_service, h1, h2]), rfl⟩
  · intro h1 h2
    exact ⟨habort _ (by simp [check_service, h1, h2]), rfl⟩
  · intro hok hid0
    simp [act, hok, verify_config_exists, hid0]
  · intro hok hid1 hcf
    have hobs : observe p env.configExists env.parseResult
        = Except.ok ⟨RunnerState.UNREGISTERED, [], none⟩ := by
      rw [hcf]
      simp [observe]
    exact act_ok p env ⟨RunnerState.UNREGISTERED, [], none⟩ hok hid1 hobs

/-- Environment for the C6 witness: status exits non-zero with stderr not
matching the stopped pattern. -/
def envC6w : Env :=
  ⟨2, "weird out", "weird err", true, false, Except.ok ⟨none⟩, 0, "", "", 0, "", ""⟩

/-- C6 witness: the preflight theorem evaluated on a concrete failing
status query, surfacing its stdout/stderr. -/
theorem preflight_checks_witness :
    act pC6 envC6w = ⟨[], Except.error (Failure.statusError "weird out" "weird err")⟩ ∧
    failureOutput (Failure.statusError "weird out" "weird err")
      = some ("weird out", "weird err") :=
  (preflight_checks pC6 envC6w).2.2.1 (by decide) rfl

/-- C7: a malformed configuration document (TOML parse failure) aborts the
invocation fatally with no action performed; a parse failure is never
treated as UNREGISTERED, which `get_state` yields exactly when the first
entry of a well-formed document is missing or lacks a name or token. -/
theorem malformed_config_fatal (p : Params) (env : Env)
    (hsvc : check_service env = Except.ok ())
    (hid : env.runnerIdExists = true)
    (hcex : env.configExists = true)
    (e : String) (hparse : env.parseResult = Except.error e) :
    act p env = ⟨[], Except.error (Failure.parseError e)⟩ ∧
    (∀ cfg : Config, (get_state p cfg).state = RunnerState.UNREGISTERED ↔
      firstEntry cfg = none ∨
      ∃ ent, firstEntry cfg = some ent ∧ (ent.name = none ∨ ent.token = none)) := by
  constructor
  · have hobs : observe p env.configExists env.parseResult
        = Except.error (Failure.parseError e) := by
      rw [hcex, hparse]
      simp [observe]
    simp [act, hsvc, verify_ok env hid, hobs]
  · intro cfg
    cases hfe : firstEntry cfg with
    | none => simp [get_state, hfe]
    | some ent =>
      cases hn : ent.name with
      | none => simp [get_state, hfe, hn]
      | some rn =>
        cases ht : ent.token with
        | none => simp [get_state, hfe, hn, ht]
        | some rt =>
          simp [get_state, hfe, hn, ht]
          split_ifs <;> simp

/-- Parameters for the C7 witness. -/
def pC7 : Params :=
  ⟨"present", "https://gitlab.example.com", "tok", "host1", some "docker",
   none, none, none, none, false⟩

/-- Environment for the C7 witness: the config file exists but its TOML
parse fails. -/
def envC7 : Env :=
  ⟨0, "Service is running", "", true, true, Except.error "bad toml",
   0, "", "", 0, "", ""⟩

/-- C7 witness: the parse-failure theorem evaluated on a concrete
malformed document. -/
theorem malformed_config_fatal_witness :
    act pC7 envC7 = ⟨[], Except.error (Failure.parseError "bad toml")⟩ :=
  (malformed_config_fatal pC7 envC7 rfl rfl rfl "bad toml" rfl).1

/-- C8: in every invocation that passes the preflight checks, the action
trace takes one of four shapes: empty; the global-settings seeding
(`make_start_config`, which serializes and atomically replaces the config
document when global settings are non-empty) immediately followed by the
registration; an unregistration, then the seeding, then the registration;
or a pure unregistration with no seeding at all.  Seeding thus runs
immediately before every registration and never before an
unregistration. -/
theorem seed_before_register_only (p : Params) (env : Env) (obs : ObsResult)
    (hsvc : check_service env = Except.ok ())
    (hid : env.runnerIdExists = true)
    (hobs : observe p env.configExists env.parseResult = Except.ok obs) :
    (act p env).trace = [] ∨
    (act p env).trace = make_start_config p ++ [registerAction p] ∨
    (act p env).trace
      = unregisterAction p obs.current_name :: (make_start_config p ++ [registerAction p]) ∨
    (act p env).trace = [unregisterAction p obs.current_name] := by
  rw [act_ok p env obs hsvc hid hobs]
  by_cases hp : p.state = "present"
  · cases hso : obs.state with
    | UNREGISTERED =>
      refine Or.inr (Or.inl ?_)
      by_cases hrc : env.registerRc = 0 <;>
        simp [act_dispatch, do_enable, register_runner, hp, hso, hrc]
    | TOKEN_MISMATCH =>
      by_cases hu : env.unregisterRc = 0
      · refine Or.inr (Or.inr (Or.inl ?_))
        by_cases hrc : env.registerRc = 0 <;>
          simp [act_dispatch, do_reenable, do_enable, register_runner,
            unregister_runner, hp, hso, hu, hrc]
      · refine Or.inr (Or.inr (Or.inr ?_))
        simp [act_dispatch, do_reenable, unregister_runner, hp, hso, hu]
    | REGISTERED =>
      cases hr : p.recreate
      · exact Or.inl (by simp [act_dispatch, hp, hso, hr])
      · by_cases hu : env.unregisterRc = 0
        · refine Or.inr (Or.inr (Or.inl ?_))
          by_cases hrc : env.registerRc = 0 <;>
            simp [act_dispatch, do_reenable, do_enable, register_runner,
              unregister_runner, hp, hso, hr, hu, hrc]
        · refine Or.inr (Or.inr (Or.inr ?_))
          simp [act_dispatch, do_reenable, unregister_runner, hp, hso, hr, hu]
    | REREGISTERED => exact Or.inl (by simp [act_dispatch, hp, hso])
    | NAME_MISMATCH => exact Or.inl (by simp [act_dispatch, hp, hso])
  · by_cases ha : p.state = "absent"
    · cases hso : obs.state with
      | REGISTERED =>
        refine Or.inr (Or.inr (Or.inr ?_))
        by_cases hu : env.unregisterRc = 0 <;>
          simp [act_dispatch, do_disable, unregister_runner, hp, ha, hso, hu]
      | UNREGISTERED => exact Or.inl (by simp [act_dispatch, hp, ha, hso])
      | TOKEN_MISMATCH => exact Or.inl (by simp [act_dispatch, hp, ha, hso])
      | REREGISTERED => exact Or.inl (by simp [act_dispatch, hp, ha, hso])
      | NAME_MISMATCH => exact Or.inl (by simp [act_dispatch, hp, ha, hso])
    · exact Or.inl (by simp [act_dispatch, hp, ha])

/-- Parameters for the C8 witness: default global settings supplied. -/
def pC8 : Params :=
  ⟨"present", "https://gitlab.example.com", "tok", "host1", some "docker",
   none, none, some get_default_globals, none, false⟩

/-- Environment for the C8 witness: no config file. -/
def envC8 : Env :=
  ⟨0, "Service is running", "", true, false, Except.ok ⟨none⟩, 0, "", "", 0, "", ""⟩

/-- C8 witness: the trace-shape theorem evaluated on a concrete seeding
registration. -/
theorem seed_before_register_only_witness :
    (act pC8 envC8).trace = [] ∨
    (act pC8 envC8).trace = make_start_config pC8 ++ [registerAction pC8] ∨
    (act pC8 envC8).trace
      = unregisterAction pC8 none :: (make_start_config pC8 ++ [registerAction pC8]) ∨
    (act pC8 envC8).trace = [unregisterAction pC8 none] :=
  seed_before_register_only pC8 envC8 ⟨RunnerState.UNREGISTERED, [], none⟩ rfl rfl rfl

/-- C9: when the caller supplies no global-settings mapping, the declared
default applies and equals exactly concurrent = 1, check_interval = 0,
connection_max_age = "15m0s", shutdown_timeout = 0, and
session_server.session_timeout = 1800. -/
theorem default_globals_exact :
    resolve_global_params none
      = some [("concurrent", GVal.i 1),
              ("check_interval", GVal.i 0),
              ("connection_max_age", GVal.s "15m0s"),
              ("shutdown_timeout", GVal.i 0),
              ("session_server", GVal.d [("session_timeout", GVal.i 1800)])] := rfl

/-- C10: when the caller explicitly supplies an empty global-settings
mapping, the seeding step writes nothing (the empty dict is falsy, so
`make_start_config` creates no file and performs no atomic replace),
registration runs with no preceding seed action, and the defaults are not
re-imposed: they apply only when the parameter is omitted. -/
theorem empty_globals_no_seed (p : Params) (env : Env)
    (h : p.global_params = some []) :
    make_start_config p = [] ∧
    (do_enable p env).1 = [registerAction p] ∧
    resolve_global_params (some ([] : List (String × GVal))) = some [] ∧
    resolve_global_params (some ([] : List (String × GVal)))
      ≠ resolve_global_params none := by
  refine ⟨?_, ?_, rfl, ?_⟩
  · simp [make_start_config, h]
  · simp [do_enable, make_start_config, register_runner, h]
  · simp [resolve_global_params, get_default_globals]

/-- Parameters for the C10 witness: explicitly empty global settings. -/
def pC10 : Params :=
  ⟨"present", "https://gitlab.example.com", "tok", "host1", some "docker",
   none, none, some [], none, false⟩

/-- Environment for the C10 witness. -/
def envC10 : Env :=
  ⟨0, "Service is running", "", true, false, Except.ok ⟨none⟩, 0, "", "", 0, "", ""⟩

/-- C10 witness: the empty-globals theorem evaluated at a concrete
invocation with an explicitly empty mapping. -/
theorem empty_globals_no_seed_witness :
    make_start_config pC10 = [] ∧
    (do_enable pC10 envC10).1 = [registerAction pC10] ∧
    resolve_global_params (some ([] : List (String × GVal))) = some [] ∧
    resolve_global_params (some ([] : List (String × GVal)))
      ≠ resolve_global_params none :=
  empty_globals_no_seed pC10 envC10 rfl
